import Mathlib

/-!
# Verification of the `SimpleRemoteEPCServer` protocol core

A shallow embedding of `llvm/include/llvm/ExecutionEngine/Orc/TargetProcess/
SimpleRemoteEPCServer.h` and (where only declarations appear in the header)
of the behaviour its specification describes for the out-of-line method
bodies.  Machine integers are modelled as `Nat` with explicit reduction
modulo `2 ^ 64` where 64-bit overflow matters.
-/

namespace SimpleRemoteEPCServerModel

/-- The modulus of unsigned 64-bit (`uint64_t`) arithmetic. -/
def U64 : Nat := 2 ^ 64

/-! ## Sequence-number allocation

Source (header, real code):
`uint64_t NextSeqNo = 0;`
`uint64_t getNextSeqNo() { return NextSeqNo++; }`
`void releaseSeqNo(uint64_t) {}`
-/

/-- Initial value of the `NextSeqNo` member: `uint64_t NextSeqNo = 0;`. -/
def initialNextSeqNo : Nat := 0

/-- `getNextSeqNo` returns the current counter value and post-increments the
stored counter, in unsigned 64-bit arithmetic.  The first component is the
value handed out, the second the new stored counter. -/
def getNextSeqNo (NextSeqNo : Nat) : Nat × Nat :=
  (NextSeqNo, (NextSeqNo + 1) % U64)

/-- `releaseSeqNo` has an empty body: releasing a sequence number leaves the
allocator state untouched. -/
def releaseSeqNo (_SeqNo : Nat) (NextSeqNo : Nat) : Nat := NextSeqNo

/-- The stored counter after `n` calls to `getNextSeqNo`, starting from
`init`. -/
def nextSeqNoAfter (init : Nat) : Nat → Nat
  | 0 => init
  | n + 1 => (getNextSeqNo (nextSeqNoAfter init n)).2

/-- The value handed out by the `n`-th call to `getNextSeqNo` (0-indexed),
starting from counter value `init`. -/
def allocatedSeqNo (init n : Nat) : Nat := (getNextSeqNo (nextSeqNoAfter init n)).1

theorem nextSeqNoAfter_eq (init : Nat) (hinit : init < U64) :
    ∀ n, nextSeqNoAfter init n = (init + n) % U64 := by
  intro n
  induction n with
  | zero => simp [nextSeqNoAfter, Nat.mod_eq_of_lt hinit]
  | succ n ih =>
      simp only [nextSeqNoAfter, getNextSeqNo, ih]
      rw [Nat.mod_add_mod]
      ring_nf

theorem allocatedSeqNo_eq (init n : Nat) (hinit : init < U64) :
    allocatedSeqNo init n = (init + n) % U64 := by
  simp [allocatedSeqNo, getNextSeqNo, nextSeqNoAfter_eq init hinit]

theorem initial_lt_U64 : initialNextSeqNo < U64 := by
  simp [initialNextSeqNo, U64]

/-- C1 counterexample: the allocator works in unsigned 64-bit arithmetic, so
the `2 ^ 64`-th allocation wraps around and hands out the very same value as
the `0`-th allocation — the claim that a sequence number is never handed out
again within a session fails at this concrete pair of allocations. -/
theorem seqNo_reused_after_wraparound :
    allocatedSeqNo initialNextSeqNo (2 ^ 64) = allocatedSeqNo initialNextSeqNo 0 ∧
    (0 : Nat) < 2 ^ 64 := by
  constructor
  · rw [allocatedSeqNo_eq _ _ initial_lt_U64, allocatedSeqNo_eq _ _ initial_lt_U64]
    simp [initialNextSeqNo, U64]
  · positivity

/-- C1 (amended): within the first `2 ^ 64` allocations of a session the
allocator hands out strictly increasing values starting from the initial
counter value, so no value is handed out twice in that range, and
`releaseSeqNo` is a no-op — releasing never makes a value available again. -/
theorem seqNo_allocator_monotone_no_reuse (i j k s : Nat)
    (hij : i < j) (hj : j < U64) :
    allocatedSeqNo initialNextSeqNo 0 = initialNextSeqNo ∧
    allocatedSeqNo initialNextSeqNo i < allocatedSeqNo initialNextSeqNo j ∧
    allocatedSeqNo initialNextSeqNo i ≠ allocatedSeqNo initialNextSeqNo j ∧
    releaseSeqNo k s = s := by
  have hi : i < U64 := lt_trans hij hj
  have e : ∀ m, m < U64 → allocatedSeqNo initialNextSeqNo m = m := by
    intro m hm
    rw [allocatedSeqNo_eq _ _ initial_lt_U64]
    simp [initialNextSeqNo, Nat.mod_eq_of_lt hm]
  refine ⟨e 0 (by simp [U64]), ?_, ?_, rfl⟩
  · rw [e i hi, e j hj]; exact hij
  · rw [e i hi, e j hj]; exact Nat.ne_of_lt hij

/-- Witness for C1: concrete instantiation at the first two allocations. -/
theorem seqNo_allocator_monotone_no_reuse_witness :
    (0 : Nat) < 1 ∧ (1 : Nat) < U64 ∧
    (allocatedSeqNo initialNextSeqNo 0 = initialNextSeqNo ∧
     allocatedSeqNo initialNextSeqNo 0 < allocatedSeqNo initialNextSeqNo 1 ∧
     allocatedSeqNo initialNextSeqNo 0 ≠ allocatedSeqNo initialNextSeqNo 1 ∧
     releaseSeqNo 5 7 = 7) :=
  ⟨by decide, by simp [U64], seqNo_allocator_monotone_no_reuse 0 1 5 7 (by decide) (by simp [U64])⟩

/-! ## Protocol data model -/

/-- Message opcodes (spec §6: Setup, Call, Result, Disconnect). -/
inductive Opcode
  | Setup
  | Call
  | Result
  | Disconnect
  deriving DecidableEq, Repr

/-- `HandleMessageAction`: `handleMessage` tells the transport whether to
continue pumping messages or tear the channel down. -/
inductive HandleMessageAction
  | ContinueSession
  | EndSession
  deriving DecidableEq, Repr

/-- A wrapper-function result (`WrapperFunctionResult`): either result bytes
or an out-of-band error. -/
inductive WFResult
  | success (bytes : List Nat)
  | outOfBandError (msg : String)
  deriving DecidableEq, Repr

/-- Serialization of a wrapper result into the argument bytes of a `Result`
message: a tag byte followed by the payload. -/
def serializeWF : WFResult → List Nat
  | .success bytes => 0 :: bytes
  | .outOfBandError msg => 1 :: msg.toList.map Char.toNat

/-- A loaded dynamic library (`sys::DynamicLibrary`), observed through
symbol resolution only. -/
structure Dylib where
  syms : List (String × Nat)
  deriving DecidableEq, Repr

/-- `getAddressOfSymbol`: resolve a name in one library. -/
def Dylib.resolve (dl : Dylib) (name : String) : Option Nat :=
  (dl.syms.find? fun p => p.1 == name).map Prod.snd

/-- `enum { ServerRunning, ServerShuttingDown, ServerShutDown } RunState;` -/
inductive RunStateT
  | ServerRunning
  | ServerShuttingDown
  | ServerShutDown
  deriving DecidableEq, Repr

/-- Forward-progress rank of a run state (spec §3: the state machine is
monotonic along Running, ShuttingDown, ShutDown). -/
def RunStateT.rank : RunStateT → Nat
  | .ServerRunning => 0
  | .ServerShuttingDown => 1
  | .ServerShutDown => 2

/-- The mutable state of a `SimpleRemoteEPCServer` (header members).  The
pending-call table maps a sequence number to the promise the issuing thread
waits on; promises and error reporters are identified by numeric tags. -/
structure ServerState where
  RunState : RunStateT
  ShutdownErr : Option String
  NextSeqNo : Nat
  PendingJITDispatchResults : List (Nat × Nat)
  Dylibs : List Dylib
  ReportError : Nat
  deriving DecidableEq, Repr

/-- Observable effects of the core: outbound messages, waiter completions,
reported errors, and hand-offs to the Dispatcher. -/
inductive Event
  | sendMessage (OpC : Opcode) (SeqNo : Nat) (TagAddr : Nat) (ArgBytes : List Nat)
  | fulfill (promiseId : Nat) (SeqNo : Nat) (r : WFResult)
  | reported (reporter : Nat) (msg : String)
  | dispatched (SeqNo : Nat) (TagAddr : Nat) (ArgBytes : List Nat)
  deriving DecidableEq, Repr

/-- `PendingJITDispatchResults.find(SeqNo)` on the association-list model of
the `DenseMap`. -/
def lookupPending (m : List (Nat × Nat)) (SeqNo : Nat) : Option Nat :=
  (m.find? fun p => p.1 == SeqNo).map Prod.snd

/-- `PendingJITDispatchResults.erase(I)`: remove the entry for `SeqNo`. -/
def erasePending (m : List (Nat × Nat)) (SeqNo : Nat) : List (Nat × Nat) :=
  m.filter fun p => p.1 != SeqNo

/-- External collaborators of the core: resolution of a tag address to a
wrapper function, the transport send operation, and the dynamic-library
loader.  A send outcome of `none` is success, `some e` a send error. -/
structure Env where
  resolveTag : Nat → Option (List Nat → WFResult)
  sendOutcome : Opcode → Nat → Nat → List Nat → Option String
  openLib : String → Nat → Except String Dylib

/-- Spec §4.2 and §3 (monotonic state): a session-fatal handling error moves
the run state forward to ShuttingDown (never backward) and records the
error in `ShutdownErr`. -/
def joinErr : Option String → Option String → Option String
  | none, b => b
  | some a, none => some a
  | some a, some b => some (a ++ "; " ++ b)

/-- Record a session-fatal error (see `joinErr` for error combination). -/
def failSession (st : ServerState) (e : String) : ServerState :=
  { st with
    RunState := match st.RunState with
      | .ServerRunning => .ServerShuttingDown
      | s => s,
    ShutdownErr := joinErr st.ShutdownErr (some e) }

/-- Modelled from the spec: the body of `SimpleRemoteEPCServer::handleResult`
is not under `src/` (only its declaration is).  Spec §4.2: look up `SeqNo`
in the Pending-Call Table; if found, remove the entry and deliver `ArgBytes`
(deserialized into a wrapper-function result) to the associated waiter; if
not found, this is a protocol error (session-fatal). -/
def handleResult (st : ServerState) (SeqNo : Nat) (ArgBytes : List Nat) :
    Except String (ServerState × List Event) :=
  match lookupPending st.PendingJITDispatchResults SeqNo with
  | none => .error ("No call for sequence number " ++ toString SeqNo)
  | some p =>
      .ok ({ st with PendingJITDispatchResults :=
               erasePending st.PendingJITDispatchResults SeqNo },
           [Event.fulfill p SeqNo (WFResult.success ArgBytes)])

/-- Modelled from the spec: the body of `handleCallWrapper` is not under
`src/`.  Spec §4.2: an inbound Call must be handed to the Dispatcher rather
than executed inline; the server state is untouched on the receipt path. -/
def handleCallWrapper (st : ServerState) (RemoteSeqNo TagAddr : Nat)
    (ArgBytes : List Nat) : ServerState × List Event :=
  (st, [Event.dispatched RemoteSeqNo TagAddr ArgBytes])

/-- Modelled from the spec: the dispatched unit of work for an inbound Call
(the lambda `handleCallWrapper` hands to the Dispatcher, not under `src/`).
Spec §4.2: execute the resolved wrapper synchronously — an unresolvable tag
address produces a failure result instead of terminating the session — then
send one Result message tagged with the same sequence number the request
carried; a send failure is reported through the error callback. -/
def runCallWork (env : Env) (st : ServerState) (RemoteSeqNo TagAddr : Nat)
    (ArgBytes : List Nat) : List Event :=
  let res : WFResult :=
    match env.resolveTag TagAddr with
    | some fn => fn ArgBytes
    | none => .outOfBandError ("unresolvable tag address " ++ toString TagAddr)
  match env.sendOutcome .Result RemoteSeqNo 0 (serializeWF res) with
  | none => [Event.sendMessage .Result RemoteSeqNo 0 (serializeWF res)]
  | some e =>
      [Event.sendMessage .Result RemoteSeqNo 0 (serializeWF res),
       Event.reported st.ReportError e]

/-- Modelled from the spec: the body of `handleMessage` is not under `src/`.
Spec §4.2: the single entry point for inbound messages.  A Result is settled
against the Pending-Call Table — an unknown sequence number is session-fatal
(the session moves to ShuttingDown with the error recorded and the error is
returned).  A Call is handed to the Dispatcher and the session continues.  A
Disconnect returns the disconnect outcome.  An inbound Setup message is
never expected and is a session-fatal protocol error. -/
def handleMessage (st : ServerState) (OpC : Opcode) (SeqNo TagAddr : Nat)
    (ArgBytes : List Nat) :
    ServerState × List Event × Except String HandleMessageAction :=
  match OpC with
  | .Setup =>
      (failSession st "Unexpected Setup message", [],
       .error "Unexpected Setup message")
  | .Call =>
      let r := handleCallWrapper st SeqNo TagAddr ArgBytes
      (r.1, r.2, .ok .ContinueSession)
  | .Result =>
      match handleResult st SeqNo ArgBytes with
      | .ok (st', evs) => (st', evs, .ok .ContinueSession)
      | .error e => (failSession st e, [], .error e)
  | .Disconnect => (st, [], .ok .EndSession)

/-- Modelled from the spec: the body of `handleDisconnect` is not under
`src/`.  Spec §4.7 and §4.3: the session moves through ShuttingDown, every
outstanding Pending Call is forcibly completed with a failure, the
Dispatcher is drained, and the state reaches ShutDown with the terminal
error recorded. -/
def handleDisconnect (st : ServerState) (Err : Option String) :
    ServerState × List Event :=
  let evs := st.PendingJITDispatchResults.map fun p =>
    Event.fulfill p.2 p.1 (.outOfBandError "disconnecting")
  ({ st with RunState := .ServerShutDown,
             PendingJITDispatchResults := [],
             ShutdownErr := joinErr st.ShutdownErr Err },
   evs)

/-- Modelled from the spec: the body of `waitForDisconnect` is not under
`src/`.  Spec §4.7: block the calling thread until ShutDown is reached,
then return the terminal error, if any.  `none` models a caller that is
still blocked; `some e` models the call returning with outcome `e`. -/
def waitForDisconnect (st : ServerState) : Option (Option String) :=
  if st.RunState = RunStateT.ServerShutDown then some st.ShutdownErr else none

/-- `setErrorReporter` (header, real code): overwrite the stored
error-reporting callback of a live server. -/
def setErrorReporter (st : ServerState) (ReportError : Nat) : ServerState :=
  { st with ReportError := ReportError }

/-- Spec §7: every asynchronous error goes through the single configured
error-reporting callback currently stored in `ReportError`. -/
def reportErrorEv (st : ServerState) (msg : String) : Event :=
  Event.reported st.ReportError msg

/-- Modelled from the spec: the body of `doJITDispatch` is not under `src/`.
Spec §4.3: allocate the next sequence number, register a Pending Call under
it, and send a Call message carrying that sequence number; issuing is
refused with an out-of-band failure once the session is no longer running. -/
def issueCall (st : ServerState) (FnTag : Nat) (ArgBytes : List Nat)
    (promiseId : Nat) : ServerState × List Event :=
  if st.RunState = RunStateT.ServerRunning then
    ({ st with NextSeqNo := (getNextSeqNo st.NextSeqNo).2,
               PendingJITDispatchResults :=
                 st.PendingJITDispatchResults ++
                   [((getNextSeqNo st.NextSeqNo).1, promiseId)] },
     [Event.sendMessage .Call (getNextSeqNo st.NextSeqNo).1 FnTag ArgBytes])
  else
    (st, [Event.fulfill promiseId 0
            (.outOfBandError "jit_dispatch not available (EPC server shut down)")])

/-- Modelled from the spec: the body of `loadDylib` is not under `src/`.
Spec §4.5: open a native library at `Path` honoring `Mode`; on success
append it to the registry and return a new, previously-unused handle; on
failure return a load error to be surfaced as a failure result. -/
def loadDylib (env : Env) (st : ServerState) (Path : String) (Mode : Nat) :
    Except String (ServerState × Nat) :=
  match env.openLib Path Mode with
  | .error e => .error e
  | .ok dl => .ok ({ st with Dylibs := st.Dylibs ++ [dl] }, st.Dylibs.length)

/-- Modelled from the spec: `loadDylibWrapper` encodes the outcome of
`loadDylib` into a wrapper result — a load failure becomes a failure result
for the peer, never a session-fatal error, and a failed load leaves the
server state unchanged. -/
def loadDylibRun (env : Env) (st : ServerState) (Path : String) (Mode : Nat) :
    ServerState × WFResult :=
  match loadDylib env st Path Mode with
  | .ok (st', h) => (st', .success [h])
  | .error e => (st, .outOfBandError e)

/-! ## Symbol lookup (§4.5) -/

/-- One element of a lookup request: a symbol name and its required/weak
flag (`RemoteSymbolLookupSetElement`, modelled from the spec — the type
lives in a header that is not under `src/`). -/
structure RemoteSymbolLookupElement where
  Name : String
  Required : Bool
  deriving DecidableEq, Repr

/-- One lookup request: a library handle plus an ordered sequence of symbol
elements (`RemoteSymbolLookup`, modelled from the spec). -/
structure RemoteSymbolLookup where
  H : Nat
  Symbols : List RemoteSymbolLookupElement
  deriving DecidableEq, Repr

/-- Modelled from the spec: the per-symbol step of `lookupSymbols` (body not
under `src/`).  Spec §4.5: a resolved name yields its address; an unresolved
weak name yields the sentinel null address `0`; an unresolved required name
is a lookup error. -/
def lookupElem (dl : Dylib) (e : RemoteSymbolLookupElement) : Except String Nat :=
  match dl.resolve e.Name with
  | some a => .ok a
  | none =>
      if e.Required then .error ("Symbol not found: " ++ e.Name)
      else .ok 0

/-- Modelled from the spec: the inner loop of `lookupSymbols` over one
request's symbol elements, in order, with early return on the first failed
required symbol. -/
def lookupRequestSyms (dl : Dylib) :
    List RemoteSymbolLookupElement → Except String (List Nat)
  | [] => .ok []
  | e :: es =>
      match lookupElem dl e with
      | .error err => .error err
      | .ok a =>
          match lookupRequestSyms dl es with
          | .error err => .error err
          | .ok as => .ok (a :: as)

/-- Modelled from the spec: one lookup request of `lookupSymbols`: an
unrecognized handle is a lookup error, otherwise each name is resolved in
order. -/
def lookupRequest (Dylibs : List Dylib) (r : RemoteSymbolLookup) :
    Except String (List Nat) :=
  match Dylibs.get? r.H with
  | none => .error "Unrecognized handle"
  | some dl => lookupRequestSyms dl r.Symbols

/-- Modelled from the spec: the body of `lookupSymbols` is not under `src/`.
Spec §4.5: for an ordered sequence of lookup requests produce, for each
request, an ordered sequence of resolved addresses in the same order as the
requested names; a failure of any request fails the call with a lookup
error. -/
def lookupSymbols (Dylibs : List Dylib) :
    List RemoteSymbolLookup → Except String (List (List Nat))
  | [] => .ok []
  | r :: rs =>
      match lookupRequest Dylibs r with
      | .error err => .error err
      | .ok g =>
          match lookupSymbols Dylibs rs with
          | .error err => .error err
          | .ok gs => .ok (g :: gs)

/-- Boolean success observer for `Except`. -/
def exceptIsOk {ε α : Type} : Except ε α → Bool
  | .ok _ => true
  | .error _ => false

/-- Spec-side view: the address a symbol element should resolve to when its
request succeeds (its address, or null for an unresolved weak symbol). -/
def elemAddr (dl : Dylib) (e : RemoteSymbolLookupElement) : Nat :=
  match dl.resolve e.Name with
  | some a => a
  | none => 0

/-- Spec-side view: the address group a request should produce on success. -/
def specGroup (Dylibs : List Dylib) (r : RemoteSymbolLookup) : List Nat :=
  match Dylibs.get? r.H with
  | none => []
  | some dl => r.Symbols.map (elemAddr dl)

/-- Spec-side view: whether a request fails — an unrecognized handle, or a
required symbol that cannot be resolved. -/
def requestFails (Dylibs : List Dylib) (r : RemoteSymbolLookup) : Bool :=
  match Dylibs.get? r.H with
  | none => true
  | some dl => r.Symbols.any fun e => e.Required && (dl.resolve e.Name).isNone

/-! ## The Dispatcher (§4.4) -/

/-- `ThreadDispatcher` state (header members `Running` and `Outstanding`;
the method bodies are not under `src/`). -/
structure ThreadDispatcher where
  Running : Bool
  Outstanding : Nat
  deriving DecidableEq, Repr

/-- A freshly constructed dispatcher: `Running = true`, `Outstanding = 0`. -/
def ThreadDispatcher.new : ThreadDispatcher :=
  { Running := true, Outstanding := 0 }

/-- Modelled from the spec: `ThreadDispatcher::dispatch` (body not under
`src/`).  Spec §4.4: while running, schedule the work unit (one more
outstanding unit); after `shutdown()` has begun, further dispatch calls are
rejected (spec choice: reject, so forced-late calls surface as errors) and
the work unit is not executed. -/
def ThreadDispatcher.dispatch (d : ThreadDispatcher) :
    Except String ThreadDispatcher :=
  if d.Running then .ok { d with Outstanding := d.Outstanding + 1 }
  else .error "dispatch called on a shut down dispatcher"

/-- A previously dispatched unit of work completes. -/
def ThreadDispatcher.workDone (d : ThreadDispatcher) : ThreadDispatcher :=
  { d with Outstanding := d.Outstanding - 1 }

/-- Modelled from the spec: the first phase of `shutdown()` — stop accepting
new work. -/
def ThreadDispatcher.shutdownRequest (d : ThreadDispatcher) : ThreadDispatcher :=
  { d with Running := false }

/-- The dispatcher state after `k` in-flight work units have completed. -/
def ThreadDispatcher.afterCompletions (d : ThreadDispatcher) : Nat → ThreadDispatcher
  | 0 => d
  | k + 1 => (d.afterCompletions k).workDone

/-- Modelled from the spec: the wait condition of `shutdown()` — it can
return after `k` in-flight completions exactly when the outstanding count
has reached zero. -/
def ThreadDispatcher.shutdownReturnsAfter (d : ThreadDispatcher) (k : Nat) : Bool :=
  (d.shutdownRequest.afterCompletions k).Outstanding == 0

/-! ## Construction (`Create`, header, real code) -/

/-- A bootstrap service, observed through the symbols its
`addBootstrapSymbols` call contributes. -/
structure BootstrapService where
  contributes : List (String × Nat)
  deriving DecidableEq, Repr

/-- The write-only `Setup` builder the caller-supplied setup function runs
against: bootstrap symbols, services, and the dispatcher and error reporter
it writes directly into the server under construction. -/
structure SetupBuilder where
  BootstrapSymbols : List (String × Nat)
  Services : List BootstrapService
  D : Option Nat
  ReportError : Option Nat
  deriving DecidableEq, Repr

/-- The fresh builder `Setup S(*Server)` handed to the setup function. -/
def initialSetupBuilder : SetupBuilder :=
  { BootstrapSymbols := [], Services := [], D := none, ReportError := none }

/-- External collaborators of `Create`: the caller-supplied setup function,
`TransportT::Create`, and the send outcome of `sendSetupMessage` on the
finalized bootstrap symbol map (`none` is success). -/
structure CreateEnv where
  SetupFunction : SetupBuilder → Except String SetupBuilder
  transportCreate : Except String Nat
  sendSetup : List (String × Nat) → Option String

/-- The reporter tag of the default error reporter `Create` installs
(`logAllUnhandledErrors` to `errs()`). -/
def defaultReporter : Nat := 0

/-- A constructed server as returned by `Create`. -/
structure CreatedServer where
  T : Nat
  D : Option Nat
  Services : List BootstrapService
  state : ServerState
  deriving DecidableEq, Repr

/-- Construction steps, recorded in order for the instrumented `Create`. -/
inductive CreateStep
  | ranSetupFunction
  | installedDefaultReporter
  | createdTransport
  | contributedBootstrapSymbols (count : Nat)
  | sentSetupMessage
  deriving DecidableEq, Repr

/-- `Service->addBootstrapSymbols(S.bootstrapSymbols())` for each service in
order: each appends its contributed entries to the map. -/
def contributeAll (Services : List BootstrapService)
    (m : List (String × Nat)) : List (String × Nat) :=
  Services.foldl (fun acc svc => acc ++ svc.contributes) m

/-- `SimpleRemoteEPCServer::Create` (header, real code), instrumented with
the ordered trace of construction steps it performs: run the caller-supplied
setup function against a fresh builder (a failure is returned as-is);
install the default error reporter when the setup function configured none;
attempt transport creation (a failure is returned as-is); move the services
into the server and let each contribute bootstrap symbols; send the Setup
message with the finalized symbol map (a failure is returned as-is);
otherwise return the constructed server. -/
def Create (env : CreateEnv) : Except String CreatedServer × List CreateStep :=
  match env.SetupFunction initialSetupBuilder with
  | .error e => (.error e, [CreateStep.ranSetupFunction])
  | .ok S =>
      let reporter : Nat :=
        match S.ReportError with
        | some r => r
        | none => defaultReporter
      let steps1 : List CreateStep :=
        match S.ReportError with
        | some _ => [CreateStep.ranSetupFunction]
        | none => [CreateStep.ranSetupFunction, CreateStep.installedDefaultReporter]
      match env.transportCreate with
      | .error e => (.error e, steps1)
      | .ok T =>
          let steps2 := steps1 ++
            [CreateStep.createdTransport,
             CreateStep.contributedBootstrapSymbols S.Services.length]
          match env.sendSetup (contributeAll S.Services S.BootstrapSymbols) with
          | some e => (.error e, steps2 ++ [CreateStep.sentSetupMessage])
          | none =>
              (.ok { T := T, D := S.D, Services := S.Services,
                     state := { RunState := .ServerRunning, ShutdownErr := none,
                                NextSeqNo := initialNextSeqNo,
                                PendingJITDispatchResults := [], Dylibs := [],
                                ReportError := reporter } },
               steps2 ++ [CreateStep.sentSetupMessage])

/-- The construction steps `Create` performs up to and including reporter
installation, as a function of the builder the setup function produced. -/
def reporterSteps (S : SetupBuilder) : List CreateStep :=
  match S.ReportError with
  | some _ => [CreateStep.ranSetupFunction]
  | none => [CreateStep.ranSetupFunction, CreateStep.installedDefaultReporter]

/-- The reporter a successful construction installs: the configured one, or
the default when none was configured. -/
def configuredReporter (S : SetupBuilder) : Nat :=
  S.ReportError.getD defaultReporter

/-! ## Session traces -/

/-- A fresh live server (the state `Create` returns). -/
def initServer (reporter : Nat) : ServerState :=
  { RunState := .ServerRunning, ShutdownErr := none,
    NextSeqNo := initialNextSeqNo, PendingJITDispatchResults := [],
    Dylibs := [], ReportError := reporter }

/-- The operations that can act on a live session: the transport-facing
entry points, outgoing-call issuance, reporter replacement, and the
dispatched work units. -/
inductive ServerOp
  | msg (OpC : Opcode) (SeqNo TagAddr : Nat) (ArgBytes : List Nat)
  | disconnect (Err : Option String)
  | issue (FnTag : Nat) (ArgBytes : List Nat) (promiseId : Nat)
  | setReporter (r : Nat)
  | runWrapper (RemoteSeqNo TagAddr : Nat) (ArgBytes : List Nat)
  | runLoadDylib (Path : String) (Mode : Nat)
  | runLookup (L : List RemoteSymbolLookup)
  | wait

/-- The effect of one operation on the server state, with the events it
emits. -/
def applyOp (env : Env) (st : ServerState) : ServerOp → ServerState × List Event
  | .msg OpC SeqNo TagAddr ArgBytes =>
      let r := handleMessage st OpC SeqNo TagAddr ArgBytes
      (r.1, r.2.1)
  | .disconnect Err => handleDisconnect st Err
  | .issue FnTag ArgBytes promiseId => issueCall st FnTag ArgBytes promiseId
  | .setReporter r => (setErrorReporter st r, [])
  | .runWrapper RemoteSeqNo TagAddr ArgBytes =>
      (st, runCallWork env st RemoteSeqNo TagAddr ArgBytes)
  | .runLoadDylib Path Mode => ((loadDylibRun env st Path Mode).1, [])
  | .runLookup _ => (st, [])
  | .wait => (st, [])

/-- Run a sequence of operations from a state. -/
def runOps (env : Env) (st : ServerState) : List ServerOp → ServerState
  | [] => st
  | o :: os => runOps env (applyOp env st o).1 os

/-- Sequence numbers of the Result messages in a list of events. -/
def sentResultSeqNos (evs : List Event) : List Nat :=
  evs.filterMap fun e =>
    match e with
    | .sendMessage .Result s _ _ => some s
    | _ => none

/-- Payloads of the Result messages in a list of events. -/
def sentResultPayloads (evs : List Event) : List (List Nat) :=
  evs.filterMap fun e =>
    match e with
    | .sendMessage .Result _ _ b => some b
    | _ => none

/-- Reporter tags of the reported-error events in a list of events. -/
def reportedTargets (evs : List Event) : List Nat :=
  evs.filterMap fun e =>
    match e with
    | .reported rep _ => some rep
    | _ => none

/-- Whether an event is a waiter completion for sequence number `SeqNo`. -/
def fulfillsSeq (SeqNo : Nat) : Event → Bool
  | .fulfill _ s _ => s == SeqNo
  | _ => false

/-- The pending table is empty whenever the session has reached ShutDown. -/
def PendingEmptyAtShutDown (st : ServerState) : Prop :=
  st.RunState = RunStateT.ServerShutDown → st.PendingJITDispatchResults = []

/-! ## Concrete example data -/

/-- A concrete wrapper function used in examples: echo the argument bytes. -/
def echoWrapper : List Nat → WFResult := fun bytes => WFResult.success bytes

/-- A concrete library exposing one symbol `"foo"` at address 7. -/
def fooLib : Dylib := { syms := [("foo", 7)] }

/-- A concrete external environment: tag 5 resolves to `echoWrapper`, sends
always succeed, and only `"libfoo.so"` can be opened. -/
def exampleEnv : Env :=
  { resolveTag := fun t => if t = 5 then some echoWrapper else none,
    sendOutcome := fun _ _ _ _ => none,
    openLib := fun path _ =>
      if path = "libfoo.so" then .ok fooLib else .error "not found" }

/-- A running example state with two pending calls. -/
def examplePending : ServerState :=
  { RunState := .ServerRunning, ShutdownErr := none, NextSeqNo := 2,
    PendingJITDispatchResults := [(0, 10), (1, 11)], Dylibs := [],
    ReportError := 3 }

/-- A shut-down example state. -/
def exampleDown : ServerState :=
  { RunState := .ServerShutDown, ShutdownErr := some "transport failure",
    NextSeqNo := 2, PendingJITDispatchResults := [], Dylibs := [],
    ReportError := 3 }

/-- A concrete operation sequence: a call is issued, the peer's Result for
it arrives, then the transport disconnects. -/
def exampleOps : List ServerOp :=
  [ServerOp.issue 5 [1, 2] 10, ServerOp.msg Opcode.Result 0 0 [9],
   ServerOp.disconnect none]

/-- A concrete `Create` environment whose setup function registers one
bootstrap symbol and one service and configures no reporter. -/
def exampleCreateEnv : CreateEnv :=
  { SetupFunction := fun S =>
      .ok { S with BootstrapSymbols := [("a", 1)],
                   Services := [{ contributes := [("b", 2)] }] },
    transportCreate := .ok 42,
    sendSetup := fun _ => none }

/-- The builder `exampleCreateEnv`'s setup function produces. -/
def exampleBuilder : SetupBuilder :=
  { BootstrapSymbols := [("a", 1)],
    Services := [{ contributes := [("b", 2)] }],
    D := none, ReportError := none }

/-- The lookup scenario of spec §8: one request against handle 0 for
`"foo"` (required) and `"bar"` (weak, absent from `fooLib`). -/
def exampleLookup : List RemoteSymbolLookup :=
  [{ H := 0, Symbols := [{ Name := "foo", Required := true },
                         { Name := "bar", Required := false }] }]

/-- A lookup request whose required symbol `"bar"` is absent. -/
def exampleBadLookup : List RemoteSymbolLookup :=
  [{ H := 0, Symbols := [{ Name := "bar", Required := true }] }]

/-! ## Helper lemmas -/

theorem rank_le_two (s : RunStateT) : s.rank ≤ 2 := by
  cases s <;> simp [RunStateT.rank]

theorem failSession_rank (st : ServerState) (e : String) :
    st.RunState.rank ≤ (failSession st e).RunState.rank := by
  cases h : st.RunState <;> simp [failSession, h, RunStateT.rank]

theorem failSession_runState_of_running (st : ServerState) (e : String)
    (h : st.RunState = RunStateT.ServerRunning) :
    (failSession st e).RunState = RunStateT.ServerShuttingDown := by
  simp [failSession, h]

theorem failSession_shutdownErr_of_none (st : ServerState) (e : String)
    (h : st.ShutdownErr = none) :
    (failSession st e).ShutdownErr = some e := by
  simp [failSession, h, joinErr]

theorem failSession_pending (st : ServerState) (e : String) :
    (failSession st e).PendingJITDispatchResults = st.PendingJITDispatchResults := rfl

theorem lookupPending_erasePending (m : List (Nat × Nat)) (s : Nat) :
    lookupPending (erasePending m s) s = none := by
  have : (erasePending m s).find? (fun p => p.1 == s) = none := by
    rw [List.find?_eq_none]
    intro x hx
    have hmem := List.mem_filter.mp hx
    simpa using hmem.2
  simp [lookupPending, this]

theorem lookupPending_nil (s : Nat) : lookupPending [] s = none := rfl

theorem erasePending_nil (s : Nat) : erasePending [] s = [] := rfl

/-! ## C8 — run-state monotonicity -/

/-- C8: the session run state is monotonic.  Every operation of the core —
`handleMessage` on any opcode, `handleDisconnect`, `waitForDisconnect`
(stateless), issuing a call, replacing the reporter, and every dispatched
wrapper work unit — moves the run state forward along
Running, ShuttingDown, ShutDown, never backward. -/
theorem runState_monotonic (env : Env) (st : ServerState) (o : ServerOp) :
    st.RunState.rank ≤ ((applyOp env st o).1).RunState.rank := by
  cases o with
  | msg OpC SeqNo TagAddr ArgBytes =>
      cases OpC with
      | Setup => simpa [applyOp, handleMessage] using failSession_rank st _
      | Call => simp [applyOp, handleMessage, handleCallWrapper]
      | Result =>
          cases hl : lookupPending st.PendingJITDispatchResults SeqNo with
          | none =>
              simpa [applyOp, handleMessage, handleResult, hl] using
                failSession_rank st _
          | some p => simp [applyOp, handleMessage, handleResult, hl]
      | Disconnect => simp [applyOp, handleMessage]
  | disconnect Err =>
      simpa [applyOp, handleDisconnect, RunStateT.rank] using rank_le_two st.RunState
  | issue FnTag ArgBytes promiseId =>
      by_cases h : st.RunState = RunStateT.ServerRunning <;>
        simp [applyOp, issueCall, h]
  | setReporter r => simp [applyOp, setErrorReporter]
  | runWrapper RemoteSeqNo TagAddr ArgBytes => simp [applyOp]
  | runLoadDylib Path Mode =>
      cases ho : env.openLib Path Mode <;>
        simp [applyOp, loadDylibRun, loadDylib, ho]
  | runLookup L => simp [applyOp]
  | wait => simp [applyOp]

/-! ## C3 — Result handling -/

/-- C3: for an inbound Result whose sequence number is in the pending-call
table, `handleResult` removes exactly that entry and fulfills the waiter
exactly once with the deserialized payload (afterwards the sequence number
is no longer present); for an unknown sequence number it returns an error
which `handleMessage` treats as session-fatal: the session moves forward to
ShuttingDown with the error recorded, the error is returned to the caller,
and no event (in particular no mere error report) is emitted. -/
theorem handleResult_exactly_once (st : ServerState) (SeqNo TagAddr : Nat)
    (ArgBytes : List Nat) (p : Nat) :
    (lookupPending st.PendingJITDispatchResults SeqNo = some p →
      handleResult st SeqNo ArgBytes =
        .ok ({ st with PendingJITDispatchResults :=
                 erasePending st.PendingJITDispatchResults SeqNo },
             [Event.fulfill p SeqNo (WFResult.success ArgBytes)]) ∧
      lookupPending (erasePending st.PendingJITDispatchResults SeqNo) SeqNo =
        none) ∧
    (lookupPending st.PendingJITDispatchResults SeqNo = none →
      handleResult st SeqNo ArgBytes =
        .error ("No call for sequence number " ++ toString SeqNo) ∧
      handleMessage st .Result SeqNo TagAddr ArgBytes =
        (failSession st ("No call for sequence number " ++ toString SeqNo), [],
         .error ("No call for sequence number " ++ toString SeqNo)) ∧
      (st.RunState = RunStateT.ServerRunning → st.ShutdownErr = none →
        (failSession st ("No call for sequence number " ++ toString SeqNo)).RunState =
            RunStateT.ServerShuttingDown ∧
        (failSession st ("No call for sequence number " ++ toString SeqNo)).ShutdownErr =
            some ("No call for sequence number " ++ toString SeqNo))) := by
  constructor
  · intro hl
    exact ⟨by simp [handleResult, hl], lookupPending_erasePending _ _⟩
  · intro hl
    refine ⟨by simp [handleResult, hl], by simp [handleMessage, handleResult, hl], ?_⟩
    intro hr he
    exact ⟨failSession_runState_of_running st _ hr,
           failSession_shutdownErr_of_none st _ he⟩

/-! ## C4 — Call handling round-trip -/

/-- C4: an inbound Call with sequence number `SeqNo` is handed to the
Dispatcher with the session continuing and the state untouched, and the
dispatched work unit sends back exactly one Result message carrying the same
sequence number — with the handler's payload when the tag resolves (success
or failure alike), and with a failure payload, not a session termination,
when the tag address is unresolvable. -/
theorem call_produces_one_result (env : Env) (st : ServerState)
    (SeqNo TagAddr : Nat) (ArgBytes : List Nat) (fn : List Nat → WFResult) :
    handleMessage st .Call SeqNo TagAddr ArgBytes =
      (st, [Event.dispatched SeqNo TagAddr ArgBytes], .ok .ContinueSession) ∧
    sentResultSeqNos (runCallWork env st SeqNo TagAddr ArgBytes) = [SeqNo] ∧
    (applyOp env st (.runWrapper SeqNo TagAddr ArgBytes)).1 = st ∧
    (env.resolveTag TagAddr = some fn →
      sentResultPayloads (runCallWork env st SeqNo TagAddr ArgBytes) =
        [serializeWF (fn ArgBytes)]) ∧
    (env.resolveTag TagAddr = none →
      sentResultPayloads (runCallWork env st SeqNo TagAddr ArgBytes) =
        [serializeWF (.outOfBandError
            ("unresolvable tag address " ++ toString TagAddr))]) := by
  refine ⟨by simp [handleMessage, handleCallWrapper], ?_, by simp [applyOp], ?_, ?_⟩
  · simp only [runCallWork]
    split <;> simp [sentResultSeqNos]
  · intro hres
    simp only [runCallWork, hres]
    split <;> simp [sentResultPayloads]
  · intro hres
    simp only [runCallWork, hres]
    split <;> simp [sentResultPayloads]

/-! ## C10 — replacing the error reporter -/

/-- C10: `setErrorReporter` can be called on any live server state: it
replaces the stored reporter and leaves every other component of the state
unchanged; errors reported afterwards go to the newly installed reporter,
a second replacement wins over the first, and every error report emitted by
a dispatched work unit (a failed Result send) targets the currently stored
reporter. -/
theorem setErrorReporter_replaces (st : ServerState) (r r' : Nat)
    (msg : String) (env : Env) (S T : Nat) (A : List Nat) :
    (setErrorReporter st r).ReportError = r ∧
    (setErrorReporter st r).RunState = st.RunState ∧
    (setErrorReporter st r).ShutdownErr = st.ShutdownErr ∧
    (setErrorReporter st r).NextSeqNo = st.NextSeqNo ∧
    (setErrorReporter st r).PendingJITDispatchResults =
      st.PendingJITDispatchResults ∧
    (setErrorReporter st r).Dylibs = st.Dylibs ∧
    reportErrorEv (setErrorReporter st r) msg = Event.reported r msg ∧
    setErrorReporter (setErrorReporter st r) r' = setErrorReporter st r' ∧
    reportedTargets (runCallWork env (setErrorReporter st r) S T A) =
      List.replicate
        (reportedTargets (runCallWork env (setErrorReporter st r) S T A)).length
        r := by
  refine ⟨rfl, rfl, rfl, rfl, rfl, rfl, rfl, rfl, ?_⟩
  simp only [runCallWork]
  split <;> simp [reportedTargets, setErrorReporter]

/-! ## C9 — library handles -/

/-- C9: a successful `loadDylib` appends the library to the registry and
returns the registry's size before the append as the handle — a handle that
was not previously valid and becomes valid for the new library — while every
already-issued handle keeps resolving to the same library; a load failure is
encoded as a failure result for the caller with the server state unchanged,
never a session-fatal error. -/
theorem loadDylib_fresh_handle (env : Env) (st : ServerState)
    (Path : String) (Mode : Nat) (dl : Dylib) (e : String) (h : Nat) :
    (env.openLib Path Mode = .ok dl →
      loadDylib env st Path Mode =
        .ok ({ st with Dylibs := st.Dylibs ++ [dl] }, st.Dylibs.length) ∧
      loadDylibRun env st Path Mode =
        ({ st with Dylibs := st.Dylibs ++ [dl] },
         WFResult.success [st.Dylibs.length]) ∧
      st.Dylibs.get? st.Dylibs.length = none ∧
      (st.Dylibs ++ [dl]).get? st.Dylibs.length = some dl ∧
      (h < st.Dylibs.length → (st.Dylibs ++ [dl]).get? h = st.Dylibs.get? h) ∧
      ({ st with Dylibs := st.Dylibs ++ [dl] } : ServerState).RunState =
        st.RunState) ∧
    (env.openLib Path Mode = .error e →
      loadDylib env st Path Mode = .error e ∧
      loadDylibRun env st Path Mode = (st, WFResult.outOfBandError e)) := by
  constructor
  · intro ho
    refine ⟨by simp [loadDylib, ho], by simp [loadDylibRun, loadDylib, ho], ?_, ?_, ?_, rfl⟩
    · simp
    · simp
    · intro hlt
      simp [List.getElem?_append_left hlt]
  · intro ho
    exact ⟨by simp [loadDylib, ho], by simp [loadDylibRun, loadDylib, ho]⟩

/-! ## C7 — Dispatcher contract -/

theorem afterCompletions_state (d : ThreadDispatcher) (k : Nat) :
    (d.afterCompletions k).Outstanding = d.Outstanding - k ∧
    (d.afterCompletions k).Running = d.Running := by
  induction k with
  | zero => simp [ThreadDispatcher.afterCompletions]
  | succ k ih =>
      simp [ThreadDispatcher.afterCompletions, ThreadDispatcher.workDone, ih,
        Nat.sub_sub]

/-- C7: once `shutdown()` has begun, every further `dispatch` call is
rejected with an error, so the work unit is never scheduled; and the
`shutdown()` wait condition holds after `k` in-flight completions exactly
when all previously dispatched units have completed (`Outstanding ≤ k`), at
which point the outstanding count is zero and the dispatcher still accepts
no new work. -/
theorem dispatcher_shutdown_contract (d : ThreadDispatcher) (k : Nat) :
    (d.Running = false →
      d.dispatch = .error "dispatch called on a shut down dispatcher") ∧
    d.shutdownRequest.dispatch =
      .error "dispatch called on a shut down dispatcher" ∧
    (d.shutdownReturnsAfter k = true ↔ d.Outstanding ≤ k) ∧
    (d.shutdownReturnsAfter k = true →
      (d.shutdownRequest.afterCompletions k).Outstanding = 0) ∧
    (d.shutdownRequest.afterCompletions k).Running = false := by
  have hout := (afterCompletions_state d.shutdownRequest k).1
  have hrun := (afterCompletions_state d.shutdownRequest k).2
  have hreq : d.shutdownRequest.Outstanding = d.Outstanding := rfl
  refine ⟨?_, ?_, ?_, ?_, ?_⟩
  · intro h; simp [ThreadDispatcher.dispatch, h]
  · simp [ThreadDispatcher.dispatch, ThreadDispatcher.shutdownRequest]
  · simp [ThreadDispatcher.shutdownReturnsAfter, hout, hreq,
      Nat.sub_eq_zero_iff_le]
  · intro h
    simpa [ThreadDispatcher.shutdownReturnsAfter] using h
  · simpa [ThreadDispatcher.shutdownRequest] using hrun

/-! ## C2 — forced shutdown completes every pending call -/

theorem issueCall_runState (st : ServerState) (FnTag : Nat)
    (ArgBytes : List Nat) (promiseId : Nat) :
    (issueCall st FnTag ArgBytes promiseId).1.RunState = st.RunState := by
  unfold issueCall; split <;> rfl

theorem issueCall_of_not_running (st : ServerState) (FnTag : Nat)
    (ArgBytes : List Nat) (promiseId : Nat)
    (h : ¬ st.RunState = RunStateT.ServerRunning) :
    (issueCall st FnTag ArgBytes promiseId).1 = st := by
  unfold issueCall; rw [if_neg h]

theorem applyOp_preserves_inv (env : Env) (st : ServerState) (o : ServerOp)
    (h : PendingEmptyAtShutDown st) :
    PendingEmptyAtShutDown (applyOp env st o).1 := by
  cases o with
  | msg OpC SeqNo TagAddr ArgBytes =>
      cases OpC with
      | Setup =>
          intro hs
          simp only [applyOp, handleMessage] at hs ⊢
          rw [failSession_pending]
          apply h
          cases hrs : st.RunState <;> simp_all [failSession]
      | Call =>
          intro hs
          simp only [applyOp, handleMessage, handleCallWrapper] at hs ⊢
          exact h hs
      | Result =>
          cases hl : lookupPending st.PendingJITDispatchResults SeqNo with
          | none =>
              intro hs
              simp only [applyOp, handleMessage, handleResult, hl] at hs ⊢
              rw [failSession_pending]
              apply h
              cases hrs : st.RunState <;> simp_all [failSession]
          | some p =>
              intro hs
              simp only [applyOp, handleMessage, handleResult, hl] at hs ⊢
              rw [h hs, erasePending_nil]
      | Disconnect =>
          intro hs
          simp only [applyOp, handleMessage] at hs ⊢
          exact h hs
  | disconnect Err =>
      intro hs
      simp [applyOp, handleDisconnect]
  | issue FnTag ArgBytes promiseId =>
      intro hs
      simp only [applyOp] at hs ⊢
      rw [issueCall_runState] at hs
      by_cases hrs : st.RunState = RunStateT.ServerRunning
      · rw [hrs] at hs; cases hs
      · rw [issueCall_of_not_running st FnTag ArgBytes promiseId hrs]
        exact h hs
  | setReporter r =>
      intro hs
      simp only [applyOp, setErrorReporter] at hs ⊢
      exact h hs
  | runWrapper RemoteSeqNo TagAddr ArgBytes =>
      intro hs; exact h hs
  | runLoadDylib Path Mode =>
      cases ho : env.openLib Path Mode with
      | ok dl =>
          intro hs
          simp only [applyOp, loadDylibRun, loadDylib, ho] at hs ⊢
          exact h hs
      | error e =>
          intro hs
          simp only [applyOp, loadDylibRun, loadDylib, ho] at hs ⊢
          exact h hs
  | runLookup L =>
      intro hs; exact h hs
  | wait =>
      intro hs; exact h hs

theorem runOps_preserves_inv (env : Env) :
    ∀ (ops : List ServerOp) (st : ServerState),
      PendingEmptyAtShutDown st → PendingEmptyAtShutDown (runOps env st ops)
  | [], _, h => h
  | o :: os, st, h =>
      runOps_preserves_inv env os (applyOp env st o).1
        (applyOp_preserves_inv env st o h)

/-- C2: forcing a session into shutdown while `N` calls are pending
completes all `N` waiters with a failure — one completion per pending entry,
in table order — empties the pending-call table, and drives the run state to
ShutDown; `waitForDisconnect` only ever returns in a ShutDown state, and in
every state a session can reach from construction, ShutDown implies the
pending table has been emptied, so every waiter is completed before
`waitForDisconnect` returns.  An entry already removed by result delivery is
not failed again during shutdown: removal happens exactly once. -/
theorem forced_shutdown_fails_all_pending (env : Env) (st : ServerState)
    (Err : Option String) (r SeqNo : Nat) (ops : List ServerOp) :
    (handleDisconnect st Err).2 =
      st.PendingJITDispatchResults.map (fun p =>
        Event.fulfill p.2 p.1 (WFResult.outOfBandError "disconnecting")) ∧
    (handleDisconnect st Err).2.length =
      st.PendingJITDispatchResults.length ∧
    (handleDisconnect st Err).1.PendingJITDispatchResults = [] ∧
    (handleDisconnect st Err).1.RunState = RunStateT.ServerShutDown ∧
    (waitForDisconnect st ≠ none → st.RunState = RunStateT.ServerShutDown) ∧
    PendingEmptyAtShutDown (runOps env (initServer r) ops) ∧
    ((handleDisconnect
        { st with PendingJITDispatchResults :=
                    erasePending st.PendingJITDispatchResults SeqNo }
        Err).2.filter (fulfillsSeq SeqNo) = []) := by
  refine ⟨rfl, by simp [handleDisconnect], rfl, rfl, ?_, ?_, ?_⟩
  · intro hw
    by_cases hs : st.RunState = RunStateT.ServerShutDown
    · exact hs
    · simp [waitForDisconnect, hs] at hw
  · exact runOps_preserves_inv env ops (initServer r) (by intro h; rfl)
  · simp only [handleDisconnect]
    rw [List.filter_eq_nil_iff]
    intro e he
    obtain ⟨p, hp, rfl⟩ := List.mem_map.mp he
    have hne := (List.mem_filter.mp hp).2
    simp only [fulfillsSeq]
    simpa using hne

/-! ## C5 — fail-fast construction order -/

/-- C5: `Create` is fail-fast in a fixed order.  A setup-function failure is
returned before anything else happens; the default error reporter is
installed — before transport construction — exactly when the setup function
configured none; a transport-construction failure is returned with no
service contribution and no Setup message; services contribute their symbols
only after the transport exists and before the Setup message is sent; a
Setup-send failure is returned; only when every step succeeds is a server
returned, carrying the configured (or default) reporter and a fresh running
state. -/
theorem create_fail_fast_ordered (env : CreateEnv) (e : String)
    (S : SetupBuilder) (T r0 : Nat) :
    (env.SetupFunction initialSetupBuilder = .error e →
      Create env = (.error e, [CreateStep.ranSetupFunction])) ∧
    (S.ReportError = none →
      reporterSteps S =
        [CreateStep.ranSetupFunction, CreateStep.installedDefaultReporter]) ∧
    (S.ReportError = some r0 → reporterSteps S = [CreateStep.ranSetupFunction]) ∧
    (env.SetupFunction initialSetupBuilder = .ok S →
      env.transportCreate = .error e →
      Create env = (.error e, reporterSteps S)) ∧
    (env.SetupFunction initialSetupBuilder = .ok S →
      env.transportCreate = .ok T →
      env.sendSetup (contributeAll S.Services S.BootstrapSymbols) = some e →
      Create env = (.error e,
        reporterSteps S ++
          [CreateStep.createdTransport,
           CreateStep.contributedBootstrapSymbols S.Services.length,
           CreateStep.sentSetupMessage])) ∧
    (env.SetupFunction initialSetupBuilder = .ok S →
      env.transportCreate = .ok T →
      env.sendSetup (contributeAll S.Services S.BootstrapSymbols) = none →
      Create env =
        (.ok { T := T, D := S.D, Services := S.Services,
               state := initServer (configuredReporter S) },
         reporterSteps S ++
           [CreateStep.createdTransport,
            CreateStep.contributedBootstrapSymbols S.Services.length,
            CreateStep.sentSetupMessage])) := by
  refine ⟨?_, ?_, ?_, ?_, ?_, ?_⟩
  · intro h1; simp [Create, h1]
  · intro h; simp [reporterSteps, h]
  · intro h; simp [reporterSteps, h]
  · intro h1 h2
    cases hr : S.ReportError <;>
      simp [Create, h1, h2, reporterSteps, hr]
  · intro h1 h2 h3
    cases hr : S.ReportError <;>
      simp [Create, h1, h2, h3, reporterSteps, hr]
  · intro h1 h2 h3
    cases hr : S.ReportError <;>
      simp [Create, h1, h2, h3, reporterSteps, hr, configuredReporter,
        initServer, initialNextSeqNo]

/-! ## C6 — ordered symbol lookup with weak/required semantics -/

theorem lookupRequestSyms_isOk (dl : Dylib) :
    ∀ es : List RemoteSymbolLookupElement,
      exceptIsOk (lookupRequestSyms dl es) =
        es.all fun e => !(e.Required && (dl.resolve e.Name).isNone)
  | [] => rfl
  | e :: es => by
      have ih := lookupRequestSyms_isOk dl es
      simp only [lookupRequestSyms, List.all_cons]
      cases hr : dl.resolve e.Name with
      | some a =>
          simp only [lookupElem, hr, Option.isNone_some, Bool.and_false,
            Bool.not_false, Bool.true_and]
          cases hrec : lookupRequestSyms dl es with
          | ok as => rw [hrec] at ih; simpa [exceptIsOk] using ih
          | error err => rw [hrec] at ih; simpa [exceptIsOk] using ih
      | none =>
          cases hreq : e.Required with
          | true => simp [lookupElem, hr, hreq, exceptIsOk]
          | false =>
              simp only [lookupElem, hr, hreq, if_neg Bool.false_ne_true,
                Bool.false_and, Bool.not_false, Bool.true_and]
              cases hrec : lookupRequestSyms dl es with
              | ok as => rw [hrec] at ih; simpa [exceptIsOk] using ih
              | error err => rw [hrec] at ih; simpa [exceptIsOk] using ih

theorem lookupRequestSyms_ok (dl : Dylib) :
    ∀ es : List RemoteSymbolLookupElement,
      (es.all fun e => !(e.Required && (dl.resolve e.Name).isNone)) = true →
      lookupRequestSyms dl es = .ok (es.map (elemAddr dl))
  | [], _ => rfl
  | e :: es, h => by
      rw [List.all_cons, Bool.and_eq_true] at h
      have ih := lookupRequestSyms_ok dl es h.2
      simp only [lookupRequestSyms, List.map_cons, ih]
      cases hr : dl.resolve e.Name with
      | some a => simp [lookupElem, hr, elemAddr]
      | none =>
          have hreq : e.Required = false := by
            have := h.1
            rw [hr] at this
            simpa using this
          simp [lookupElem, hr, hreq, elemAddr]

theorem all_not_eq_not_any {α : Type} (p : α → Bool) :
    ∀ l : List α, (l.all fun x => !p x) = !l.any p
  | [] => rfl
  | x :: l => by simp [List.all_cons, List.any_cons, all_not_eq_not_any p l]

theorem lookupRequest_isOk (Dylibs : List Dylib) (r : RemoteSymbolLookup) :
    exceptIsOk (lookupRequest Dylibs r) = !requestFails Dylibs r := by
  unfold lookupRequest requestFails
  cases hg : Dylibs.get? r.H with
  | none => rfl
  | some dl =>
      rw [lookupRequestSyms_isOk]
      exact all_not_eq_not_any _ r.Symbols

theorem lookupRequest_ok (Dylibs : List Dylib) (r : RemoteSymbolLookup)
    (h : requestFails Dylibs r = false) :
    lookupRequest Dylibs r = .ok (specGroup Dylibs r) := by
  unfold lookupRequest specGroup
  unfold requestFails at h
  cases hg : Dylibs.get? r.H with
  | none => rw [hg] at h; cases h
  | some dl =>
      rw [hg] at h
      apply lookupRequestSyms_ok
      rw [all_not_eq_not_any]
      have h' : (r.Symbols.any fun e =>
          e.Required && (dl.resolve e.Name).isNone) = false := h
      rw [h']
      rfl

theorem lookupSymbols_isOk (Dylibs : List Dylib) :
    ∀ L : List RemoteSymbolLookup,
      exceptIsOk (lookupSymbols Dylibs L) =
        L.all fun q => !requestFails Dylibs q
  | [] => rfl
  | q :: qs => by
      have ih := lookupSymbols_isOk Dylibs qs
      have hq := lookupRequest_isOk Dylibs q
      simp only [lookupSymbols, List.all_cons]
      cases hreq : lookupRequest Dylibs q with
      | error err =>
          rw [hreq] at hq
          simp [exceptIsOk] at hq
          simp [exceptIsOk, ← hq]
      | ok g =>
          rw [hreq] at hq
          simp only [exceptIsOk] at hq
          rw [← hq, Bool.true_and]
          cases hrec : lookupSymbols Dylibs qs with
          | ok gs => rw [hrec] at ih; simpa [exceptIsOk] using ih
          | error err => rw [hrec] at ih; simpa [exceptIsOk] using ih

theorem lookupSymbols_ok (Dylibs : List Dylib) :
    ∀ L : List RemoteSymbolLookup,
      (L.all fun q => !requestFails Dylibs q) = true →
      lookupSymbols Dylibs L = .ok (L.map (specGroup Dylibs))
  | [], _ => rfl
  | q :: qs, h => by
      rw [List.all_cons, Bool.and_eq_true] at h
      have h1 : requestFails Dylibs q = false := by
        simpa using h.1
      have ih := lookupSymbols_ok Dylibs qs h.2
      simp [lookupSymbols, lookupRequest_ok Dylibs q h1, ih]

/-- C6: `lookupSymbols` succeeds exactly when no request fails (every handle
recognized and every required symbol resolvable), and on success returns one
group per request, in request order, each group listing the addresses in the
order of that request's names — an unresolved weak symbol contributing the
sentinel null address 0 at its position; while any failing request (in
particular a required symbol that cannot be resolved) fails the whole
`lookupSymbols` call with a lookup error. -/
theorem lookupSymbols_ordered (Dylibs : List Dylib)
    (L : List RemoteSymbolLookup) (r : RemoteSymbolLookup) (dl : Dylib) :
    exceptIsOk (lookupSymbols Dylibs L) =
      (L.all fun q => !requestFails Dylibs q) ∧
    ((L.all fun q => !requestFails Dylibs q) = true →
      lookupSymbols Dylibs L = .ok (L.map (specGroup Dylibs))) ∧
    (Dylibs.get? r.H = some dl →
      specGroup Dylibs r = r.Symbols.map (elemAddr dl)) ∧
    ((L.any fun q => requestFails Dylibs q) = true →
      exceptIsOk (lookupSymbols Dylibs L) = false) := by
  refine ⟨lookupSymbols_isOk Dylibs L, lookupSymbols_ok Dylibs L, ?_, ?_⟩
  · intro hg
    rw [List.get?_eq_getElem?] at hg
    simp [specGroup, hg]
  · intro hany
    rw [lookupSymbols_isOk Dylibs L]
    induction L with
    | nil => cases hany
    | cons q qs ih =>
        rw [List.any_cons, Bool.or_eq_true] at hany
        rcases hany with hq | hqs
        · simp [List.all_cons, hq]
        · simp [List.all_cons, ih hqs]

/-! ## Witnesses -/

/-- Witness for C2 at a state with two pending calls and at a concrete
operation trace ending in a disconnect. -/
theorem forced_shutdown_fails_all_pending_witness :
    (handleDisconnect examplePending none).2 =
      [Event.fulfill 10 0 (WFResult.outOfBandError "disconnecting"),
       Event.fulfill 11 1 (WFResult.outOfBandError "disconnecting")] ∧
    (handleDisconnect examplePending none).1.PendingJITDispatchResults = [] ∧
    (handleDisconnect examplePending none).1.RunState =
      RunStateT.ServerShutDown ∧
    waitForDisconnect exampleDown ≠ none ∧
    exampleDown.RunState = RunStateT.ServerShutDown ∧
    (runOps exampleEnv (initServer 3) exampleOps).RunState =
      RunStateT.ServerShutDown ∧
    (runOps exampleEnv (initServer 3) exampleOps).PendingJITDispatchResults =
      [] ∧
    ((handleDisconnect
        { examplePending with
            PendingJITDispatchResults :=
              erasePending examplePending.PendingJITDispatchResults 0 }
        none).2.filter (fulfillsSeq 0) = []) := by
  have h := forced_shutdown_fails_all_pending exampleEnv examplePending none 3 0
    exampleOps
  have hdown := forced_shutdown_fails_all_pending exampleEnv exampleDown none 3 0
    []
  refine ⟨?_, h.2.2.1, h.2.2.2.1, ?_, ?_, ?_, ?_, h.2.2.2.2.2.2⟩
  · rw [h.1]; rfl
  · simp [waitForDisconnect, exampleDown]
  · exact hdown.2.2.2.2.1 (by simp [waitForDisconnect, exampleDown])
  · rfl
  · exact h.2.2.2.2.2.1 (by rfl)

/-- Witness for C3: a known sequence number is settled and removed; an
unknown one is a session-fatal error. -/
theorem handleResult_exactly_once_witness :
    lookupPending examplePending.PendingJITDispatchResults 1 = some 11 ∧
    handleResult examplePending 1 [4, 5] =
      .ok ({ examplePending with PendingJITDispatchResults := [(0, 10)] },
           [Event.fulfill 11 1 (WFResult.success [4, 5])]) ∧
    lookupPending (erasePending examplePending.PendingJITDispatchResults 1) 1 =
      none ∧
    lookupPending exampleDown.PendingJITDispatchResults 9 = none ∧
    handleResult exampleDown 9 [] = .error "No call for sequence number 9" ∧
    handleMessage exampleDown .Result 9 0 [] =
      (failSession exampleDown "No call for sequence number 9", [],
       .error "No call for sequence number 9") := by
  have h := (handleResult_exactly_once examplePending 1 0 [4, 5] 11).1 (by rfl)
  have h2 := (handleResult_exactly_once exampleDown 9 0 [] 0).2 (by rfl)
  refine ⟨by rfl, ?_, h.2, by rfl, ?_, ?_⟩
  · rw [h.1]; rfl
  · rw [h2.1]; rfl
  · rw [h2.2.1]; rfl

/-- Witness for C4: a resolvable and an unresolvable tag, each yielding one
Result with the request's sequence number. -/
theorem call_produces_one_result_witness :
    handleMessage examplePending .Call 9 5 [1, 2] =
      (examplePending, [Event.dispatched 9 5 [1, 2]], .ok .ContinueSession) ∧
    sentResultSeqNos (runCallWork exampleEnv examplePending 9 5 [1, 2]) = [9] ∧
    exampleEnv.resolveTag 5 = some echoWrapper ∧
    sentResultPayloads (runCallWork exampleEnv examplePending 9 5 [1, 2]) =
      [serializeWF (echoWrapper [1, 2])] ∧
    exampleEnv.resolveTag 6 = none ∧
    sentResultPayloads (runCallWork exampleEnv examplePending 9 6 [1, 2]) =
      [serializeWF (WFResult.outOfBandError
          ("unresolvable tag address " ++ toString 6))] := by
  have h := call_produces_one_result exampleEnv examplePending 9 5 [1, 2]
    echoWrapper
  have h6 := call_produces_one_result exampleEnv examplePending 9 6 [1, 2]
    echoWrapper
  exact ⟨h.1, h.2.1, rfl, h.2.2.2.1 rfl, rfl, h6.2.2.2.2 rfl⟩

/-- Witness for C5: the all-successful construction path, with the default
reporter installed and the full ordered step trace. -/
theorem create_fail_fast_ordered_witness :
    exampleCreateEnv.SetupFunction initialSetupBuilder = .ok exampleBuilder ∧
    exampleCreateEnv.transportCreate = .ok 42 ∧
    exampleCreateEnv.sendSetup
      (contributeAll exampleBuilder.Services exampleBuilder.BootstrapSymbols) =
      none ∧
    Create exampleCreateEnv =
      (.ok { T := 42, D := none, Services := [{ contributes := [("b", 2)] }],
             state := initServer (configuredReporter exampleBuilder) },
       [CreateStep.ranSetupFunction, CreateStep.installedDefaultReporter,
        CreateStep.createdTransport, CreateStep.contributedBootstrapSymbols 1,
        CreateStep.sentSetupMessage]) := by
  have h := create_fail_fast_ordered exampleCreateEnv "" exampleBuilder 42 0
  refine ⟨rfl, rfl, rfl, ?_⟩
  have h4 := h.2.2.2.2.2 rfl rfl rfl
  rw [h4]
  rfl

/-- Witness for C6: the §8 scenario — required `"foo"` resolves to 7, weak
absent `"bar"` yields 0, and a required absent symbol fails the call. -/
theorem lookupSymbols_ordered_witness :
    (exampleLookup.all fun q => !requestFails [fooLib] q) = true ∧
    lookupSymbols [fooLib] exampleLookup = .ok [[7, 0]] ∧
    (exampleBadLookup.any fun q => requestFails [fooLib] q) = true ∧
    exceptIsOk (lookupSymbols [fooLib] exampleBadLookup) = false := by
  have h := lookupSymbols_ordered [fooLib] exampleLookup
    { H := 0, Symbols := [] } fooLib
  have hbad := lookupSymbols_ordered [fooLib] exampleBadLookup
    { H := 0, Symbols := [] } fooLib
  refine ⟨by rfl, ?_, by rfl, hbad.2.2.2 (by rfl)⟩
  have h2 := h.2.1 (by rfl)
  rw [h2]
  rfl

/-- Witness for C7: a dispatcher with two outstanding units rejects new work
after shutdown begins and the wait condition holds exactly at two
completions. -/
theorem dispatcher_shutdown_contract_witness :
    (ThreadDispatcher.mk false 0).Running = false ∧
    (ThreadDispatcher.mk false 0).dispatch =
      .error "dispatch called on a shut down dispatcher" ∧
    (ThreadDispatcher.mk true 2).shutdownRequest.dispatch =
      .error "dispatch called on a shut down dispatcher" ∧
    ((ThreadDispatcher.mk true 2).shutdownReturnsAfter 2 = true ↔ 2 ≤ 2) ∧
    (ThreadDispatcher.mk true 2).shutdownReturnsAfter 2 = true ∧
    ((ThreadDispatcher.mk true 2).shutdownRequest.afterCompletions 2).Outstanding =
      0 ∧
    ((ThreadDispatcher.mk true 2).shutdownRequest.afterCompletions 2).Running =
      false := by
  have h0 := dispatcher_shutdown_contract (ThreadDispatcher.mk false 0) 0
  have h := dispatcher_shutdown_contract (ThreadDispatcher.mk true 2) 2
  exact ⟨rfl, h0.1 rfl, h.2.1, h.2.2.1, by decide, h.2.2.2.1 (by decide),
    h.2.2.2.2⟩

/-- Witness for C9: the first load yields handle 0, a second load yields
handle 1, and a failing load is a failure result with the state unchanged. -/
theorem loadDylib_fresh_handle_witness :
    exampleEnv.openLib "libfoo.so" 0 = .ok fooLib ∧
    loadDylib exampleEnv (initServer 3) "libfoo.so" 0 =
      .ok ({ initServer 3 with Dylibs := [fooLib] }, 0) ∧
    loadDylib exampleEnv { initServer 3 with Dylibs := [fooLib] }
        "libfoo.so" 0 =
      .ok ({ initServer 3 with Dylibs := [fooLib, fooLib] }, 1) ∧
    exampleEnv.openLib "missing" 0 = .error "not found" ∧
    loadDylibRun exampleEnv (initServer 3) "missing" 0 =
      (initServer 3, WFResult.outOfBandError "not found") := by
  have h1 := (loadDylib_fresh_handle exampleEnv (initServer 3) "libfoo.so" 0
    fooLib "" 0).1 rfl
  have h2 := (loadDylib_fresh_handle exampleEnv
    { initServer 3 with Dylibs := [fooLib] } "libfoo.so" 0 fooLib "" 0).1 rfl
  have h3 := (loadDylib_fresh_handle exampleEnv (initServer 3) "missing" 0
    fooLib "not found" 0).2 rfl
  refine ⟨rfl, ?_, ?_, rfl, h3.2⟩
  · rw [h1.1]; rfl
  · rw [h2.1]; rfl

end SimpleRemoteEPCServerModel
